import Mathlib

/-
Verification of the external-memory file-descriptor export/import protocol of
the Vulkan-Samples repository (samples `external_memory_fd`,
`external_memory_fd_export`, `external_memory_fd_import`).

The C++ sources are shallowly embedded: pure computations become Lean
functions, the syscall-driven transport routines become functions from an
oracle of syscall results to a trace of events plus an abort flag, and
`assert`-style fatal paths become `Except.error` results.  Machine integers
are modelled as `Nat`/`Int`, with an explicit `% 2 ^ 32` where the source
performs 32-bit arithmetic.
-/

/-! ## POSIX ancillary-data constants (Linux LP64)

`SOL_SOCKET` and `SCM_RIGHTS` are both 1 on Linux; `CMSG_ALIGN` rounds up to
the 8-byte word size, `sizeof (struct cmsghdr)` is 16 and `sizeof (int)` is 4,
so `CMSG_LEN (sizeof (int)) = 20`. -/

def SOL_SOCKET : Nat := 1

def SCM_RIGHTS : Nat := 1

def sizeof_int : Nat := 4

def sizeof_cmsghdr : Nat := 16

def cmsgAlign (n : Nat) : Nat := (n + 7) / 8 * 8

def cmsgLen (n : Nat) : Nat := cmsgAlign sizeof_cmsghdr + n

def cmsgSpace (n : Nat) : Nat := cmsgAlign sizeof_cmsghdr + cmsgAlign n

/-- A control message (`struct cmsghdr` plus its data) as seen by
`recvmsg`/`sendmsg`.  The data region holds one native `int`, here the file
descriptor being passed. -/
structure ControlMsg where
  cmsg_len : Nat
  cmsg_level : Nat
  cmsg_type : Nat
  data : Int
deriving DecidableEq, Repr

/-- The message assembled by the sender: an optional control message and the
length of the ordinary payload (the single byte "1"). -/
structure SentMsg where
  control : Option ControlMsg
  payload_len : Nat
deriving DecidableEq, Repr

/-- A received control message is malformed when it is absent, has a length
other than `CMSG_LEN (sizeof (int))`, a level other than `SOL_SOCKET`, or a
type other than `SCM_RIGHTS` (the conditions checked by
`ExternalMemoryFDImport::receive_fd`). -/
def malformed_control : Option ControlMsg → Bool
  | none => true
  | some c =>
      !(c.cmsg_len == cmsgLen sizeof_int) ||
      !(c.cmsg_level == SOL_SOCKET) ||
      !(c.cmsg_type == SCM_RIGHTS)

namespace ExternalMemoryFDExport

/-- `ExternalMemoryFDExport::send_fd`: builds a message whose control part has
length `CMSG_LEN (sizeof (int))`, level `SOL_SOCKET`, type `SCM_RIGHTS` and
carries `exportable_fd`, alongside a 1-byte ordinary payload ("1"). -/
def send_fd_msg (exportable_fd : Int) : SentMsg :=
  { control := some
      { cmsg_len := cmsgLen sizeof_int
        cmsg_level := SOL_SOCKET
        cmsg_type := SCM_RIGHTS
        data := exportable_fd }
    payload_len := 1 }

end ExternalMemoryFDExport

namespace ExternalMemoryFDImport

/-- `ExternalMemoryFDImport::receive_fd`: `n` is the `recvmsg` return value and
`cm` the received control message.  A non-positive `recvmsg` result is fatal
(logged, then `assert(false)`).  Otherwise: if the control message is present
with length `CMSG_LEN (sizeof (int))`, the level and type are checked (wrong
level or type returns `-1`) and on success the carried descriptor is returned;
any other control message yields the sentinel `-1` ("descriptor was not
passed"). -/
def receive_fd (n : Int) (cm : Option ControlMsg) : Except String Int :=
  if n ≤ 0 then
    Except.error "Failed to receive message"
  else
    match cm with
    | some c =>
        if c.cmsg_len = cmsgLen sizeof_int then
          if c.cmsg_level ≠ SOL_SOCKET then Except.ok (-1)
          else if c.cmsg_type ≠ SCM_RIGHTS then Except.ok (-1)
          else Except.ok c.data
        else Except.ok (-1)
    | none => Except.ok (-1)

/-- `ExternalMemoryFDImport::receive_importable_fd`: creates a socket, connects
to the rendezvous path, calls `receive_fd`, asserts the result is
non-negative, closes the socket and returns the descriptor.  `socket_ret` and
`connect_ret` are the results of the `socket` and `connect` syscalls, `n` and
`cm` the `recvmsg` oracle passed down to `receive_fd`. -/
def receive_importable_fd (socket_ret connect_ret : Int) (n : Int)
    (cm : Option ControlMsg) : Except String Int :=
  if socket_ret < 0 then Except.error "Failed to create socket"
  else if connect_ret < 0 then Except.error "Failed to connect socket"
  else
    match receive_fd n cm with
    | Except.error e => Except.error e
    | Except.ok fd =>
        if fd < 0 then Except.error "Assertion failed: imported_fd >= 0"
        else Except.ok fd

end ExternalMemoryFDImport

/-- C1: the message built by `ExternalMemoryFDExport::send_fd` for any
descriptor value passes every validation check of
`ExternalMemoryFDImport::receive_fd` (its control part is not malformed), and
`receive_fd`, applied to the delivered 1-byte payload and that control
message, returns exactly the descriptor placed in the control message. -/
theorem send_receive_fd_roundtrip (fd : Int) :
    malformed_control (ExternalMemoryFDExport.send_fd_msg fd).control = false ∧
    ExternalMemoryFDImport.receive_fd
      ((ExternalMemoryFDExport.send_fd_msg fd).payload_len : Int)
      (ExternalMemoryFDExport.send_fd_msg fd).control = Except.ok fd := by
  constructor
  · rfl
  · rfl

/-- C2: provided `recvmsg` succeeded (`0 < n`) and any control message carries
a kernel-installed (hence non-negative) descriptor, `receive_fd` returns the
sentinel `-1` exactly when the control message is absent, has the wrong
length, the wrong level, or the wrong type; and the caller
`receive_importable_fd` never returns a negative descriptor, aborting
(assertion) whenever `receive_fd` produced a negative value. -/
theorem receive_fd_sentinel_iff_malformed (n : Int) (cm : Option ControlMsg)
    (hn : 0 < n) (hdata : ∀ c, cm = some c → 0 ≤ c.data) :
    (ExternalMemoryFDImport.receive_fd n cm = Except.ok (-1) ↔
      malformed_control cm = true) ∧
    (∀ s k r, ExternalMemoryFDImport.receive_importable_fd s k n cm =
      Except.ok r → 0 ≤ r) ∧
    (∀ s k v, 0 ≤ s → 0 ≤ k →
      ExternalMemoryFDImport.receive_fd n cm = Except.ok v → v < 0 →
      ExternalMemoryFDImport.receive_importable_fd s k n cm =
        Except.error "Assertion failed: imported_fd >= 0") := by
  have hn' : ¬ n ≤ 0 := by omega
  refine ⟨?_, ?_, ?_⟩
  · cases cm with
    | none => simp [ExternalMemoryFDImport.receive_fd, hn', malformed_control]
    | some c =>
        simp only [ExternalMemoryFDImport.receive_fd, if_neg hn',
          malformed_control]
        by_cases hl : c.cmsg_len = cmsgLen sizeof_int
        · by_cases hv : c.cmsg_level = SOL_SOCKET
          · by_cases ht : c.cmsg_type = SCM_RIGHTS
            · have hd : (0 : Int) ≤ c.data := hdata c rfl
              simp [hl, hv, ht]
              omega
            · simp [hl, hv, ht]
          · simp [hl, hv]
        · simp [hl]
  · intro s k r h
    simp only [ExternalMemoryFDImport.receive_importable_fd] at h
    by_cases hs : s < 0
    · simp [hs] at h
    · by_cases hk : k < 0
      · simp [hs, hk] at h
      · simp only [if_neg hs, if_neg hk] at h
        cases hfd : ExternalMemoryFDImport.receive_fd n cm with
        | error e => rw [hfd] at h; cases h
        | ok fd =>
            rw [hfd] at h
            by_cases hneg : fd < 0
            · simp [hneg] at h
            · simp [hneg] at h
              omega
  · intro s k v hs hk hv hvneg
    have hs' : ¬ s < 0 := by omega
    have hk' : ¬ k < 0 := by omega
    simp [ExternalMemoryFDImport.receive_importable_fd, hs', hk', hv, hvneg]

/-- C2 witness: a concrete malformed message (wrong control type) yields the
sentinel, and a concrete valid message is accepted by the caller. -/
theorem receive_fd_sentinel_witness :
    (ExternalMemoryFDImport.receive_fd 1
      (some { cmsg_len := 20, cmsg_level := 1, cmsg_type := 2, data := 5 }) =
      Except.ok (-1) ↔
      malformed_control
        (some { cmsg_len := 20, cmsg_level := 1, cmsg_type := 2, data := 5 }) =
        true) ∧
    (∀ s k r, ExternalMemoryFDImport.receive_importable_fd s k 1
      (some { cmsg_len := 20, cmsg_level := 1, cmsg_type := 2, data := 5 }) =
      Except.ok r → 0 ≤ r) := by
  have h := receive_fd_sentinel_iff_malformed 1
    (some { cmsg_len := 20, cmsg_level := 1, cmsg_type := 2, data := 5 })
    (by decide) (by intro c hc; cases hc; decide)
  exact ⟨h.1, h.2.1⟩

/-! ## Handle Transport, producer side (`send_exportable_fd`)

The routine is a straight-line sequence of syscalls; each syscall's result is
supplied by a `SendOracle`, and the routine is embedded as the trace of
observable events it performs plus a flag recording whether it hit one of its
`assert(false)` abort paths. -/

/-- Results of the syscalls performed by `send_exportable_fd`, in program
order. -/
structure SendOracle where
  socket_ret : Int
  bind_ret : Int
  listen_ret : Int
  accept_ret : Int
  send_ret : Int
deriving DecidableEq, Repr

/-- Observable events of `send_exportable_fd`. -/
inductive SendEvent where
  | socketCreate
  | unlinkPath
  | bindSocket
  | listenSocket (backlog : Nat)
  | acceptConn
  | sendMsgCall (fd : Int)
  | closeFd (fd : Int)
  | logError (msg : String)
deriving DecidableEq, Repr

namespace ExternalMemoryFDExport

/-- `ExternalMemoryFDExport::send_exportable_fd`: create a UNIX stream socket,
unlink the stale rendezvous path, bind, listen with backlog 1, accept one
connection, send the descriptor-carrying message (`send_fd`), then close the
accepted connection and the listening socket.  Each step whose syscall result
is negative logs an error and aborts (`assert(false)`); the returned flag is
`true` when the routine aborted. -/
def send_exportable_fd (o : SendOracle) (exportable_fd : Int) :
    List SendEvent × Bool :=
  let t1 : List SendEvent := [SendEvent.socketCreate]
  if o.socket_ret < 0 then
    (t1 ++ [SendEvent.logError "Failed to create socket"], true)
  else
    let t2 := t1 ++ [SendEvent.unlinkPath, SendEvent.bindSocket]
    if o.bind_ret < 0 then
      (t2 ++ [SendEvent.logError "Failed to bind socket"], true)
    else
      let t3 := t2 ++ [SendEvent.listenSocket 1]
      if o.listen_ret < 0 then
        (t3 ++ [SendEvent.logError "Failed to listen on socket"], true)
      else
        let t4 := t3 ++ [SendEvent.acceptConn]
        if o.accept_ret < 0 then
          (t4 ++ [SendEvent.logError "Failed to accept connection"], true)
        else
          let t5 := t4 ++ [SendEvent.sendMsgCall exportable_fd]
          if o.send_ret < 0 then
            (t5 ++ [SendEvent.logError "Failed to send fd"], true)
          else
            (t5 ++ [SendEvent.closeFd o.accept_ret,
                    SendEvent.closeFd o.socket_ret], false)

end ExternalMemoryFDExport

/-- Recognizes a file-descriptor close event. -/
def is_close_event : SendEvent → Bool
  | SendEvent.closeFd _ => true
  | _ => false

/-- C3 counterexample: with every syscall succeeding but `sendmsg` returning 0
bytes — a short send, since `send_fd` requests a 1-byte payload — the routine
neither logs the send failure nor aborts: only a negative `sendmsg` result is
treated as fatal, so a short send is not detected. -/
theorem short_send_not_fatal :
    (ExternalMemoryFDExport.send_fd_msg 7).payload_len = 1 ∧
    (ExternalMemoryFDExport.send_exportable_fd
      { socket_ret := 3, bind_ret := 0, listen_ret := 0,
        accept_ret := 4, send_ret := 0 } 7).2 = false ∧
    SendEvent.logError "Failed to send fd" ∉
      (ExternalMemoryFDExport.send_exportable_fd
        { socket_ret := 3, bind_ret := 0, listen_ret := 0,
          accept_ret := 4, send_ret := 0 } 7).1 := by
  refine ⟨rfl, rfl, ?_⟩
  decide

/-- C3 (amended): `send_exportable_fd` performs, in this order, socket
creation, removal of the stale rendezvous path, bind, listen with backlog 1,
one accept, one send of the ancillary message, then closes the accepted
connection and the listening socket; the listening socket accepts exactly one
connection before being closed; and every step whose syscall result is
negative is fatal (abort, no retry) — the send, however, is checked only for a
negative result, so a zero-byte short send is not caught. -/
theorem send_exportable_fd_state_machine (o : SendOracle) (fd : Int) :
    (¬ o.socket_ret < 0 → ¬ o.bind_ret < 0 → ¬ o.listen_ret < 0 →
      ¬ o.accept_ret < 0 → ¬ o.send_ret < 0 →
      ExternalMemoryFDExport.send_exportable_fd o fd =
        ([SendEvent.socketCreate, SendEvent.unlinkPath, SendEvent.bindSocket,
          SendEvent.listenSocket 1, SendEvent.acceptConn,
          SendEvent.sendMsgCall fd, SendEvent.closeFd o.accept_ret,
          SendEvent.closeFd o.socket_ret], false) ∧
      ((ExternalMemoryFDExport.send_exportable_fd o fd).1.count
        SendEvent.acceptConn) = 1) ∧
    (o.socket_ret < 0 →
      (ExternalMemoryFDExport.send_exportable_fd o fd).2 = true) ∧
    (o.bind_ret < 0 →
      (ExternalMemoryFDExport.send_exportable_fd o fd).2 = true) ∧
    (o.listen_ret < 0 →
      (ExternalMemoryFDExport.send_exportable_fd o fd).2 = true) ∧
    (o.accept_ret < 0 →
      (ExternalMemoryFDExport.send_exportable_fd o fd).2 = true) ∧
    (¬ o.socket_ret < 0 → ¬ o.bind_ret < 0 → ¬ o.listen_ret < 0 →
      ¬ o.accept_ret < 0 → o.send_ret < 0 →
      (ExternalMemoryFDExport.send_exportable_fd o fd).2 = true) := by
  refine ⟨?_, ?_, ?_, ?_, ?_, ?_⟩
  · intro h1 h2 h3 h4 h5
    constructor
    · simp [ExternalMemoryFDExport.send_exportable_fd, h1, h2, h3, h4, h5]
    · simp [ExternalMemoryFDExport.send_exportable_fd, h1, h2, h3, h4, h5,
        List.count_cons]
  · intro h1
    simp [ExternalMemoryFDExport.send_exportable_fd, h1]
  · intro h2
    by_cases h1 : o.socket_ret < 0 <;>
      simp [ExternalMemoryFDExport.send_exportable_fd, h1, h2]
  · intro h3
    by_cases h1 : o.socket_ret < 0 <;>
      by_cases h2 : o.bind_ret < 0 <;>
        simp [ExternalMemoryFDExport.send_exportable_fd, h1, h2, h3]
  · intro h4
    by_cases h1 : o.socket_ret < 0 <;>
      by_cases h2 : o.bind_ret < 0 <;>
        by_cases h3 : o.listen_ret < 0 <;>
          simp [ExternalMemoryFDExport.send_exportable_fd, h1, h2, h3, h4]
  · intro h1 h2 h3 h4 h5
    simp [ExternalMemoryFDExport.send_exportable_fd, h1, h2, h3, h4, h5]

/-- C3 witness: the state machine runs to completion on a concrete
all-success oracle, producing the full trace in order. -/
theorem send_exportable_fd_state_machine_witness :
    ExternalMemoryFDExport.send_exportable_fd
      { socket_ret := 3, bind_ret := 0, listen_ret := 0,
        accept_ret := 4, send_ret := 1 } 7 =
      ([SendEvent.socketCreate, SendEvent.unlinkPath, SendEvent.bindSocket,
        SendEvent.listenSocket 1, SendEvent.acceptConn,
        SendEvent.sendMsgCall 7, SendEvent.closeFd 4,
        SendEvent.closeFd 3], false) :=
  ((send_exportable_fd_state_machine
    { socket_ret := 3, bind_ret := 0, listen_ret := 0,
      accept_ret := 4, send_ret := 1 } 7).1
    (by decide) (by decide) (by decide) (by decide) (by decide)).1

/-- C7 counterexample: on a successful run (oracle: socket 3, accept 4) with
exported descriptor 7, the transport closes only the connection and listening
sockets — no close of the exported descriptor 7 appears in the trace, so the
producer retains the raw exported descriptor open after `send_exportable_fd`
returns. -/
theorem exported_fd_not_closed :
    (ExternalMemoryFDExport.send_exportable_fd
      { socket_ret := 3, bind_ret := 0, listen_ret := 0,
        accept_ret := 4, send_ret := 1 } 7).2 = false ∧
    SendEvent.closeFd 7 ∉
      (ExternalMemoryFDExport.send_exportable_fd
        { socket_ret := 3, bind_ret := 0, listen_ret := 0,
          accept_ret := 4, send_ret := 1 } 7).1 := by
  refine ⟨rfl, ?_⟩
  decide

/-- C7 (amended): after a successful transmission the transport closes exactly
the accepted connection and the listening socket; the exported file
descriptor itself is never closed (unless its value coincides with one of
those two socket descriptors), so the producer process retains the raw
exported descriptor open after `send_exportable_fd` returns. -/
theorem send_closes_only_sockets (o : SendOracle) (fd : Int)
    (h1 : ¬ o.socket_ret < 0) (h2 : ¬ o.bind_ret < 0)
    (h3 : ¬ o.listen_ret < 0) (h4 : ¬ o.accept_ret < 0)
    (h5 : ¬ o.send_ret < 0) :
    (ExternalMemoryFDExport.send_exportable_fd o fd).1.filter is_close_event =
      [SendEvent.closeFd o.accept_ret, SendEvent.closeFd o.socket_ret] ∧
    (fd ≠ o.accept_ret → fd ≠ o.socket_ret →
      SendEvent.closeFd fd ∉
        (ExternalMemoryFDExport.send_exportable_fd o fd).1) := by
  constructor
  · simp [ExternalMemoryFDExport.send_exportable_fd, h1, h2, h3, h4, h5,
      is_close_event]
  · intro ha hs
    simp [ExternalMemoryFDExport.send_exportable_fd, h1, h2, h3, h4, h5,
      ha, hs]

/-- C7 witness: on a concrete successful run the close events are exactly the
two socket closes, and the exported descriptor 9 is never closed. -/
theorem send_closes_only_sockets_witness :
    (ExternalMemoryFDExport.send_exportable_fd
      { socket_ret := 3, bind_ret := 0, listen_ret := 0,
        accept_ret := 4, send_ret := 1 } 9).1.filter is_close_event =
      [SendEvent.closeFd 4, SendEvent.closeFd 3] ∧
    SendEvent.closeFd 9 ∉
      (ExternalMemoryFDExport.send_exportable_fd
        { socket_ret := 3, bind_ret := 0, listen_ret := 0,
          accept_ret := 4, send_ret := 1 } 9).1 := by
  have h := send_closes_only_sockets
    { socket_ret := 3, bind_ret := 0, listen_ret := 0,
      accept_ret := 4, send_ret := 1 } 9
    (by decide) (by decide) (by decide) (by decide) (by decide)
  exact ⟨h.1, h.2 (by decide) (by decide)⟩

/-! ## Per-frame update and the one-shot export (C4) -/

/-- Observable events of `ExternalMemoryFDExport::update`. -/
inductive FrameEvent where
  | updateScene
  | updateGui
  | beginCB
  | drawCmd
  | endCB
  | submitCB
  | waitIdle
  | exportMemory
deriving DecidableEq, Repr

namespace ExternalMemoryFDExport

/-- `ExternalMemoryFDExport::update`: records and submits the frame's command
buffer, then — guarded by the `static bool exported` flag — waits for the
device to be idle, exports (and sends) the memory, and sets the flag.
Returns the events of this call together with the new value of the flag. -/
def update (exported : Bool) : List FrameEvent × Bool :=
  ([FrameEvent.updateScene, FrameEvent.updateGui, FrameEvent.beginCB,
    FrameEvent.drawCmd, FrameEvent.endCB, FrameEvent.submitCB] ++
    (if exported then [] else [FrameEvent.waitIdle, FrameEvent.exportMemory]),
   if exported then exported else true)

/-- Runs `update` for the given number of frames from an initial value of the
`exported` flag, concatenating the event traces. -/
def run_updates : Nat → Bool → List FrameEvent
  | 0, _ => []
  | Nat.succ k, exported =>
      (update exported).1 ++ run_updates k (update exported).2

end ExternalMemoryFDExport

namespace ExternalMemoryFD

/-- `ExternalMemoryFD::export_memory`: guarded by `assert(fd < 0)` — a second
export in the same process aborts.  `driver_fd` is the descriptor the driver
would return from `vkGetMemoryFdKHR`. -/
def export_memory (fd : Int) (driver_fd : Int) : Except String Int :=
  if fd < 0 then Except.ok driver_fd
  else Except.error "Assertion failed: fd < 0"

end ExternalMemoryFD

/-- Helper for C4: an update starting with the flag set emits no export and no
device wait. -/
theorem run_updates_true_no_export (m : Nat) :
    FrameEvent.exportMemory ∉ ExternalMemoryFDExport.run_updates m true ∧
    FrameEvent.waitIdle ∉ ExternalMemoryFDExport.run_updates m true := by
  induction m with
  | zero => simp [ExternalMemoryFDExport.run_updates]
  | succ k ih =>
      simp only [ExternalMemoryFDExport.run_updates,
        ExternalMemoryFDExport.update, List.mem_append] at ih ⊢
      simp_all

/-- C4: over any positive number of frames starting from the initial state,
the export-sample `update` loop performs the device `waitIdle` and the memory
export exactly once each; on the first frame the wait immediately precedes
the export (both after the frame submission), and once the flag is set no
later frame exports; moreover `ExternalMemoryFD::export_memory` is guarded by
the precondition `fd < 0`, aborting when a descriptor was already exported. -/
theorem export_once_after_wait_idle :
    (∀ n, 1 ≤ n →
      (ExternalMemoryFDExport.run_updates n false).count
        FrameEvent.exportMemory = 1 ∧
      (ExternalMemoryFDExport.run_updates n false).count
        FrameEvent.waitIdle = 1) ∧
    (ExternalMemoryFDExport.update false).1 =
      [FrameEvent.updateScene, FrameEvent.updateGui, FrameEvent.beginCB,
       FrameEvent.drawCmd, FrameEvent.endCB, FrameEvent.submitCB,
       FrameEvent.waitIdle, FrameEvent.exportMemory] ∧
    FrameEvent.exportMemory ∉ (ExternalMemoryFDExport.update true).1 ∧
    FrameEvent.waitIdle ∉ (ExternalMemoryFDExport.update true).1 ∧
    (∀ fd d, fd < 0 → ExternalMemoryFD.export_memory fd d = Except.ok d) ∧
    (∀ fd d, 0 ≤ fd → ExternalMemoryFD.export_memory fd d =
      Except.error "Assertion failed: fd < 0") := by
  refine ⟨?_, rfl, by decide, by decide, ?_, ?_⟩
  · intro n hn
    obtain ⟨k, rfl⟩ : ∃ k, n = k + 1 := ⟨n - 1, by omega⟩
    have hrest := run_updates_true_no_export k
    have h1 : (ExternalMemoryFDExport.run_updates k true).count
        FrameEvent.exportMemory = 0 := List.count_eq_zero.mpr hrest.1
    have h2 : (ExternalMemoryFDExport.run_updates k true).count
        FrameEvent.waitIdle = 0 := List.count_eq_zero.mpr hrest.2
    simp [ExternalMemoryFDExport.run_updates, ExternalMemoryFDExport.update,
      List.count_append, List.count_cons, h1, h2]
  · intro fd d h
    simp [ExternalMemoryFD.export_memory, h]
  · intro fd d h
    have h' : ¬ fd < 0 := by omega
    simp [ExternalMemoryFD.export_memory, h']

/-- C4 witness: three frames export exactly once, and the one-shot guard of
`ExternalMemoryFD::export_memory` holds at concrete descriptors. -/
theorem export_once_after_wait_idle_witness :
    (ExternalMemoryFDExport.run_updates 3 false).count
      FrameEvent.exportMemory = 1 ∧
    ExternalMemoryFD.export_memory (-1) 9 = Except.ok 9 ∧
    ExternalMemoryFD.export_memory 9 11 =
      Except.error "Assertion failed: fd < 0" :=
  ⟨(export_once_after_wait_idle.1 3 (by decide)).1,
   export_once_after_wait_idle.2.2.2.2.1 (-1) 9 (by decide),
   export_once_after_wait_idle.2.2.2.2.2 9 11 (by decide)⟩

/-! ## Memory allocation: export side and import side (C5, C6) -/

/-- `VK_MEMORY_PROPERTY_HOST_VISIBLE_BIT`. -/
def eHostVisible : Nat := 2

/-- `VK_MEMORY_PROPERTY_HOST_COHERENT_BIT`. -/
def eHostCoherent : Nat := 4

/-- The external-memory handle types used by these samples. -/
inductive ExternalMemoryHandleType where
  | opaqueFd
deriving DecidableEq, Repr

/-- `vk::MemoryRequirements`: driver-reported allocation size and
memory-type bitmask for an image. -/
structure MemoryRequirements where
  size : Nat
  memoryTypeBits : Nat
deriving DecidableEq, Repr

/-- Modelled from the spec: the sample framework's memory-type lookup
(`vkb::PhysicalDevice::get_memory_type`) is not part of these sources; per the
spec it chooses a memory-type index satisfying both the driver-reported
memory-type bitmask and the requested property flags, failing fatally when no
such type exists.  `types` lists the property flags of the device's memory
types by index. -/
def get_memory_type (types : List Nat) (typeBits : Nat) (required : Nat) :
    Option Nat :=
  (List.range types.length).find? fun i =>
    typeBits.testBit i && (types.getD i 0 &&& required == required)

/-- A successful memory-type lookup returns an in-range index whose type
satisfies both the bitmask and the requested property flags. -/
theorem get_memory_type_spec (types : List Nat) (typeBits required i : Nat)
    (h : get_memory_type types typeBits required = some i) :
    i < types.length ∧ typeBits.testBit i = true ∧
      types.getD i 0 &&& required = required := by
  have hmem := List.mem_of_find?_eq_some h
  have hp := List.find?_some h
  rw [List.mem_range] at hmem
  rw [Bool.and_eq_true] at hp
  refine ⟨hmem, hp.1, ?_⟩
  have := hp.2
  rwa [beq_iff_eq] at this

/-- `vk::ImportMemoryFdInfoKHR`. -/
structure ImportMemoryFdInfo where
  handleType : ExternalMemoryHandleType
  fd : Int
deriving DecidableEq, Repr

/-- The consumer side's `vk::MemoryAllocateInfo` together with its chained
`vk::ImportMemoryFdInfoKHR` structure. -/
structure MemoryAllocateInfo where
  allocationSize : Nat
  memoryTypeIndex : Nat
  importInfo : ImportMemoryFdInfo
deriving DecidableEq, Repr

namespace ExternalMemoryFDExport

/-- The handle type set in `vk::ExportMemoryAllocateInfo::handleTypes` by
`ExternalMemoryFDExport::create_exportable_memory`. -/
def export_handle_types : ExternalMemoryHandleType :=
  ExternalMemoryHandleType.opaqueFd

/-- `ExternalMemoryFDExport::get_image_size`: `extent.width * extent.height *
channel_count * channel_depth` with `channel_count = 4` and
`channel_depth = 1`, computed in 32-bit unsigned arithmetic before widening
to `VkDeviceSize`. -/
def get_image_size (width height : Nat) : Nat :=
  width * height % 2 ^ 32 * 4 % 2 ^ 32 * 1 % 2 ^ 32

/-- The export side's `vk::MemoryAllocateInfo` with its chained export
structure. -/
structure ExportAllocInfo where
  allocationSize : Nat
  memoryTypeIndex : Nat
  handleTypes : ExternalMemoryHandleType
deriving DecidableEq, Repr

/-- `ExternalMemoryFDExport::create_exportable_memory`: queries the image's
memory requirements, sets `allocationSize` to `get_image_size` (not to the
driver-reported `mem_reqs.size`), chooses the memory type from the
requirement bitmask and host-visible + host-coherent flags, and chains the
opaque-fd export info.  Allocation failure is asserted fatal, and a failing
type lookup throws; both are `none` here. -/
def create_exportable_memory (width height : Nat)
    (mem_reqs : MemoryRequirements) (types : List Nat) :
    Option ExportAllocInfo :=
  (get_memory_type types mem_reqs.memoryTypeBits
    (eHostVisible ||| eHostCoherent)).map fun idx =>
      { allocationSize := get_image_size width height
        memoryTypeIndex := idx
        handleTypes := export_handle_types }

end ExternalMemoryFDExport

namespace ExternalMemoryFDImport

/-- `ExternalMemoryFDImport::import_memory`: builds a
`vk::ImportMemoryFdInfoKHR` with the opaque-fd handle type and the received
descriptor, and a `vk::MemoryAllocateInfo` whose size is the driver-reported
requirement size and whose memory-type index satisfies the requirement
bitmask and the host-visible + host-coherent flags. -/
def import_memory (imported_fd : Int) (mem_reqs : MemoryRequirements)
    (types : List Nat) : Option MemoryAllocateInfo :=
  (get_memory_type types mem_reqs.memoryTypeBits
    (eHostVisible ||| eHostCoherent)).map fun idx =>
      { allocationSize := mem_reqs.size
        memoryTypeIndex := idx
        importInfo :=
          { handleType := ExternalMemoryHandleType.opaqueFd
            fd := imported_fd } }

/-- The outcome of `ExternalMemoryFDImport::create_imported_image`: the
external handle types declared on the image, the allocation performed by
`import_memory`, and the offset passed to `bindImageMemory`. -/
structure ImportedImageSetup where
  imageHandleTypes : ExternalMemoryHandleType
  allocInfo : MemoryAllocateInfo
  bindOffset : Nat
deriving DecidableEq, Repr

/-- `ExternalMemoryFDImport::create_imported_image`: creates the image with
opaque-fd external handle types, imports the memory, and binds the image to
the imported memory at offset 0. -/
def create_imported_image (imported_fd : Int) (mem_reqs : MemoryRequirements)
    (types : List Nat) : Option ImportedImageSetup :=
  (import_memory imported_fd mem_reqs types).map fun ai =>
    { imageHandleTypes := ExternalMemoryHandleType.opaqueFd
      allocInfo := ai
      bindOffset := 0 }

end ExternalMemoryFDImport

/-- C5: a successful `create_imported_image` carries the received descriptor
with the opaque-fd handle type (the same handle type the exporter sets), uses
the driver-reported requirement size as the allocation size, chooses an
in-range memory-type index satisfying both the requirement bitmask and the
host-visible + host-coherent property flags, and binds the image at
offset 0. -/
theorem importer_contract (fd : Int) (mem_reqs : MemoryRequirements)
    (types : List Nat) (s : ExternalMemoryFDImport.ImportedImageSetup)
    (h : ExternalMemoryFDImport.create_imported_image fd mem_reqs types =
      some s) :
    s.allocInfo.importInfo.handleType =
      ExternalMemoryFDExport.export_handle_types ∧
    s.allocInfo.importInfo.fd = fd ∧
    s.allocInfo.allocationSize = mem_reqs.size ∧
    s.allocInfo.memoryTypeIndex < types.length ∧
    mem_reqs.memoryTypeBits.testBit s.allocInfo.memoryTypeIndex = true ∧
    types.getD s.allocInfo.memoryTypeIndex 0 &&&
      (eHostVisible ||| eHostCoherent) = (eHostVisible ||| eHostCoherent) ∧
    s.bindOffset = 0 := by
  simp only [ExternalMemoryFDImport.create_imported_image,
    ExternalMemoryFDImport.import_memory, Option.map_map,
    Option.map_eq_some'] at h
  obtain ⟨idx, hfind, hs⟩ := h
  obtain ⟨hlt, hbit, hflags⟩ :=
    get_memory_type_spec types mem_reqs.memoryTypeBits
      (eHostVisible ||| eHostCoherent) idx hfind
  subst hs
  exact ⟨rfl, rfl, rfl, hlt, hbit, hflags, rfl⟩

/-- C5 witness: a concrete import — descriptor 5, requirement size 4096 with
bitmask 1, one memory type with host-visible + host-coherent flags —
satisfies the full importer contract. -/
theorem importer_contract_witness :
    ExternalMemoryFDImport.create_imported_image 5
      { size := 4096, memoryTypeBits := 1 } [6] =
      some { imageHandleTypes := ExternalMemoryHandleType.opaqueFd
             allocInfo :=
               { allocationSize := 4096
                 memoryTypeIndex := 0
                 importInfo :=
                   { handleType := ExternalMemoryHandleType.opaqueFd
                     fd := 5 } }
             bindOffset := 0 } ∧
    ({ imageHandleTypes := ExternalMemoryHandleType.opaqueFd
       allocInfo :=
         { allocationSize := 4096
           memoryTypeIndex := 0
           importInfo :=
             { handleType := ExternalMemoryHandleType.opaqueFd
               fd := 5 } }
       bindOffset := 0 } :
      ExternalMemoryFDImport.ImportedImageSetup).allocInfo.allocationSize =
      4096 ∧
    ({ imageHandleTypes := ExternalMemoryHandleType.opaqueFd
       allocInfo :=
         { allocationSize := 4096
           memoryTypeIndex := 0
           importInfo :=
             { handleType := ExternalMemoryHandleType.opaqueFd
               fd := 5 } }
       bindOffset := 0 } :
      ExternalMemoryFDImport.ImportedImageSetup).bindOffset = 0 := by
  refine ⟨by decide, ?_, ?_⟩
  · exact (importer_contract 5 { size := 4096, memoryTypeBits := 1 } [6]
      _ (by decide)).2.2.1
  · exact (importer_contract 5 { size := 4096, memoryTypeBits := 1 } [6]
      _ (by decide)).2.2.2.2.2.2

/-- `get_image_size` computes `width * height * 4` in 32-bit arithmetic. -/
theorem get_image_size_eq (width height : Nat) :
    ExternalMemoryFDExport.get_image_size width height =
      width * height * 4 % 2 ^ 32 := by
  unfold ExternalMemoryFDExport.get_image_size
  rw [Nat.mul_one, Nat.mod_mul_mod, Nat.mod_mod_of_dvd _ dvd_rfl]

/-- C6 counterexample: for a 100×100 surface, when the driver reports a
requirement size of 40064 bytes for the (identically described) image — for
example because of row-pitch padding of a linear image — the producer
allocates `100 * 100 * 4 = 40000` bytes while the consumer allocates the
driver-reported 40064 bytes: the two allocation sizes differ. -/
theorem allocation_sizes_can_differ :
    (ExternalMemoryFDExport.create_exportable_memory 100 100
      { size := 40064, memoryTypeBits := 1 } [6]).map
        ExternalMemoryFDExport.ExportAllocInfo.allocationSize =
      some 40000 ∧
    (ExternalMemoryFDImport.import_memory 5
      { size := 40064, memoryTypeBits := 1 } [6]).map
        MemoryAllocateInfo.allocationSize = some 40064 ∧
    (40000 : Nat) ≠ 40064 := by
  refine ⟨?_, ?_, by decide⟩
  · rfl
  · rfl

/-- C6 (amended): the producer's exported allocation size is
`width * height * 4` (32-bit arithmetic, ignoring the driver-reported
requirement size) while the consumer's imported allocation size is the
driver-reported requirement size of its image; the two agree exactly when
the driver reports `width * height * 4` for the consumer's image. -/
theorem allocation_size_agreement (width height : Nat) (fd : Int)
    (reqs_p reqs_c : MemoryRequirements) (types : List Nat)
    (s1 : ExternalMemoryFDExport.ExportAllocInfo) (s2 : MemoryAllocateInfo)
    (h1 : ExternalMemoryFDExport.create_exportable_memory width height
      reqs_p types = some s1)
    (h2 : ExternalMemoryFDImport.import_memory fd reqs_c types = some s2) :
    s1.allocationSize = width * height * 4 % 2 ^ 32 ∧
    s2.allocationSize = reqs_c.size ∧
    (reqs_c.size = width * height * 4 % 2 ^ 32 →
      s1.allocationSize = s2.allocationSize) := by
  simp only [ExternalMemoryFDExport.create_exportable_memory,
    Option.map_eq_some'] at h1
  simp only [ExternalMemoryFDImport.import_memory,
    Option.map_eq_some'] at h2
  obtain ⟨i1, _, hs1⟩ := h1
  obtain ⟨i2, _, hs2⟩ := h2
  subst hs1
  subst hs2
  refine ⟨get_image_size_eq width height, rfl, ?_⟩
  intro hsz
  simp [get_image_size_eq, hsz]

/-- C6 witness: when the driver-reported size for the consumer's image equals
`width * height * 4`, the two allocation sizes agree (100×100 surface,
40000 bytes). -/
theorem allocation_size_agreement_witness :
    ExternalMemoryFDExport.create_exportable_memory 100 100
      { size := 40000, memoryTypeBits := 1 } [6] =
      some { allocationSize := 40000, memoryTypeIndex := 0,
             handleTypes := ExternalMemoryHandleType.opaqueFd } ∧
    ExternalMemoryFDImport.import_memory 5
      { size := 40000, memoryTypeBits := 1 } [6] =
      some { allocationSize := 40000, memoryTypeIndex := 0,
             importInfo :=
               { handleType := ExternalMemoryHandleType.opaqueFd
                 fd := 5 } } ∧
    ({ allocationSize := 40000, memoryTypeIndex := 0,
       handleTypes := ExternalMemoryHandleType.opaqueFd } :
       ExternalMemoryFDExport.ExportAllocInfo).allocationSize =
      ({ allocationSize := 40000, memoryTypeIndex := 0,
         importInfo :=
           { handleType := ExternalMemoryHandleType.opaqueFd
             fd := 5 } } : MemoryAllocateInfo).allocationSize := by
  refine ⟨by decide, by decide, ?_⟩
  exact (allocation_size_agreement 100 100 5
    { size := 40000, memoryTypeBits := 1 }
    { size := 40000, memoryTypeBits := 1 } [6] _ _
    (by decide) (by decide)).2.2 (by decide)

/-! ## Per-frame draw traces (C8, C9) -/

/-- `vk::ImageLayout` values appearing in these samples. -/
inductive Layout where
  | undefined
  | colorAttachmentOptimal
  | depthStencilAttachmentOptimal
  | transferSrcOptimal
  | transferDstOptimal
  | presentSrc
deriving DecidableEq, Repr

/-- `vk::Extent3D`. -/
structure Extent3D where
  width : Nat
  height : Nat
  depth : Nat
deriving DecidableEq, Repr

/-- One `vk::ImageCopy` region: extent, and per-side aspect (colour or not),
mip level and layer count.  The source zero-initializes the struct and sets
the extent, the colour aspects and the layer counts, leaving both mip levels
at 0. -/
structure CopyRegion where
  extent : Extent3D
  srcAspectColor : Bool
  srcMipLevel : Nat
  srcLayerCount : Nat
  dstAspectColor : Bool
  dstMipLevel : Nat
  dstLayerCount : Nat
deriving DecidableEq, Repr

/-- Images and image views the draw routines touch. -/
inductive ImageRef where
  | renderTargetView (i : Nat)
  | renderTargetImage (i : Nat)
  | exportableView
  | exportableImage
  | importedView
  | importedImage
deriving DecidableEq, Repr

/-- Commands recorded by the draw routines, in order. -/
inductive DrawEvent where
  | barrier (img : ImageRef) (oldLayout newLayout : Layout)
  | setLayout (i : Nat) (l : Layout)
  | renderpass
  | copyImage (src dst : ImageRef) (regions : List CopyRegion)
deriving DecidableEq, Repr

/-- Recognizes the renderpass and copy commands. -/
def is_render_or_copy : DrawEvent → Bool
  | DrawEvent.renderpass => true
  | DrawEvent.copyImage _ _ _ => true
  | _ => false

/-- Recognizes a copy command. -/
def is_copy_event : DrawEvent → Bool
  | DrawEvent.copyImage _ _ _ => true
  | _ => false

namespace ExternalMemoryFDExport

/-- The loop of `ExternalMemoryFDExport::draw` transitioning the render
target's views 2, …, `n - 1` (additional colour attachments) from undefined
to colour-attachment-optimal, updating the tracked layout of each. -/
def color_attachment_transitions (n : Nat) : List DrawEvent :=
  (List.range (n - 2)).flatMap fun k =>
    [DrawEvent.barrier (ImageRef.renderTargetView (k + 2)) Layout.undefined
       Layout.colorAttachmentOptimal,
     DrawEvent.setLayout (k + 2) Layout.colorAttachmentOptimal]

/-- `ExternalMemoryFDExport::copy_color_image_to_exportable_image`:
transitions the colour image to transfer-source-optimal (updating the tracked
layout), transitions the exportable image from undefined to
transfer-destination-optimal, and records one image-to-image copy with a
single full-extent, colour-aspect, single-layer, mip-0 region. -/
def copy_color_image_to_exportable_image (ext : Extent3D) : List DrawEvent :=
  [DrawEvent.barrier (ImageRef.renderTargetView 0)
     Layout.colorAttachmentOptimal Layout.transferSrcOptimal,
   DrawEvent.setLayout 0 Layout.transferSrcOptimal,
   DrawEvent.barrier ImageRef.exportableView Layout.undefined
     Layout.transferDstOptimal,
   DrawEvent.copyImage (ImageRef.renderTargetImage 0) ImageRef.exportableImage
     [{ extent := ext, srcAspectColor := true, srcMipLevel := 0,
        srcLayerCount := 1, dstAspectColor := true, dstMipLevel := 0,
        dstLayerCount := 1 }]]

/-- `ExternalMemoryFDExport::draw` over a render target with `n` views whose
colour image has extent `ext`: colour and depth attachment transitions, the
renderpass, the copy to the exportable image, then the transition of the
colour attachment to present-source layout. -/
def draw (n : Nat) (ext : Extent3D) : List DrawEvent :=
  [DrawEvent.barrier (ImageRef.renderTargetView 0) Layout.undefined
     Layout.colorAttachmentOptimal,
   DrawEvent.setLayout 0 Layout.colorAttachmentOptimal] ++
  color_attachment_transitions n ++
  [DrawEvent.barrier (ImageRef.renderTargetView 1) Layout.undefined
     Layout.depthStencilAttachmentOptimal,
   DrawEvent.setLayout 1 Layout.depthStencilAttachmentOptimal] ++
  [DrawEvent.renderpass] ++
  copy_color_image_to_exportable_image ext ++
  [DrawEvent.barrier (ImageRef.renderTargetView 0) Layout.transferSrcOptimal
     Layout.presentSrc,
   DrawEvent.setLayout 0 Layout.presentSrc]

end ExternalMemoryFDExport

namespace ExternalMemoryFDImport

/-- `ExternalMemoryFDImport::copy_imported_image_to_color_image`: transitions
the imported image from undefined to transfer-source-optimal, transitions the
colour image from undefined to transfer-destination-optimal (updating the
tracked layout), and records one image-to-image copy with a single
full-extent, colour-aspect, single-layer, mip-0 region. -/
def copy_imported_image_to_color_image (ext : Extent3D) : List DrawEvent :=
  [DrawEvent.barrier ImageRef.importedView Layout.undefined
     Layout.transferSrcOptimal,
   DrawEvent.barrier (ImageRef.renderTargetView 0) Layout.undefined
     Layout.transferDstOptimal,
   DrawEvent.setLayout 0 Layout.transferDstOptimal,
   DrawEvent.copyImage ImageRef.importedImage (ImageRef.renderTargetImage 0)
     [{ extent := ext, srcAspectColor := true, srcMipLevel := 0,
        srcLayerCount := 1, dstAspectColor := true, dstMipLevel := 0,
        dstLayerCount := 1 }]]

/-- `ExternalMemoryFDImport::draw`: copies the imported image into the colour
image, then transitions the colour attachment to present-source layout.  No
renderpass is recorded. -/
def draw (ext : Extent3D) : List DrawEvent :=
  copy_imported_image_to_color_image ext ++
  [DrawEvent.barrier (ImageRef.renderTargetView 0) Layout.transferDstOptimal
     Layout.presentSrc,
   DrawEvent.setLayout 0 Layout.presentSrc]

end ExternalMemoryFDImport

/-- Events of the colour-attachment transition loop are barriers and layout
updates, never the renderpass or a copy. -/
theorem color_attachment_transitions_no_render_copy (n : Nat) :
    ∀ e ∈ ExternalMemoryFDExport.color_attachment_transitions n,
      is_render_or_copy e = false := by
  intro e he
  simp only [ExternalMemoryFDExport.color_attachment_transitions,
    List.mem_flatMap, List.mem_range] at he
  obtain ⟨k, -, hmem⟩ := he
  simp only [List.mem_cons, List.not_mem_nil, or_false] at hmem
  rcases hmem with h | h
  · subst h; rfl
  · subst h; rfl

/-- C8: in the producer's per-frame trace, the events recorded after the
renderpass are exactly: the colour image's transition from
colour-attachment-optimal to transfer-source-optimal followed by the tracked
layout update, the exportable image's transition from undefined to
transfer-destination-optimal, a single image-to-image copy with one region of
the colour image's full extent (colour aspect, one layer, mip level 0), and
finally the colour attachment's transition to present-source layout with its
tracked layout update; no copy is recorded before the renderpass. -/
theorem producer_frame_copy_sequence (n : Nat) (ext : Extent3D) :
    ∃ pre, (∀ e ∈ pre, is_render_or_copy e = false) ∧
      ExternalMemoryFDExport.draw n ext =
        pre ++ DrawEvent.renderpass ::
          [DrawEvent.barrier (ImageRef.renderTargetView 0)
             Layout.colorAttachmentOptimal Layout.transferSrcOptimal,
           DrawEvent.setLayout 0 Layout.transferSrcOptimal,
           DrawEvent.barrier ImageRef.exportableView Layout.undefined
             Layout.transferDstOptimal,
           DrawEvent.copyImage (ImageRef.renderTargetImage 0)
             ImageRef.exportableImage
             [{ extent := ext, srcAspectColor := true, srcMipLevel := 0,
                srcLayerCount := 1, dstAspectColor := true, dstMipLevel := 0,
                dstLayerCount := 1 }],
           DrawEvent.barrier (ImageRef.renderTargetView 0)
             Layout.transferSrcOptimal Layout.presentSrc,
           DrawEvent.setLayout 0 Layout.presentSrc] := by
  refine ⟨[DrawEvent.barrier (ImageRef.renderTargetView 0) Layout.undefined
      Layout.colorAttachmentOptimal,
    DrawEvent.setLayout 0 Layout.colorAttachmentOptimal] ++
    ExternalMemoryFDExport.color_attachment_transitions n ++
    [DrawEvent.barrier (ImageRef.renderTargetView 1) Layout.undefined
       Layout.depthStencilAttachmentOptimal,
     DrawEvent.setLayout 1 Layout.depthStencilAttachmentOptimal], ?_, ?_⟩
  · intro e he
    simp only [List.mem_append, List.mem_cons, List.not_mem_nil,
      or_false] at he
    rcases he with ((h | h) | h) | h | h
    · subst h; rfl
    · subst h; rfl
    · exact color_attachment_transitions_no_render_copy n e h
    · subst h; rfl
    · subst h; rfl
  · simp [ExternalMemoryFDExport.draw,
      ExternalMemoryFDExport.copy_color_image_to_exportable_image]

/-- C9 counterexample: the import sample's per-frame draw (here at a concrete
256×256 extent) records an image-to-image copy involving the imported image
but contains no renderpass at all — so it is not the case that in both
samples a renderpass producing the frame's pixel data precedes every copy
involving the shared resource. -/
theorem import_draw_has_no_renderpass :
    (ExternalMemoryFDImport.draw
      { width := 256, height := 256, depth := 1 }).any is_copy_event =
      true ∧
    DrawEvent.renderpass ∉
      ExternalMemoryFDImport.draw
        { width := 256, height := 256, depth := 1 } := by
  refine ⟨rfl, ?_⟩
  decide

/-- C9 (amended): in the export sample's per-frame draw, the render target's
view-0 transition from undefined to colour-attachment-optimal and the
renderpass both precede every copy command; the import sample's per-frame
draw, by contrast, records its copy of the shared (imported) image without
any renderpass. -/
theorem renderpass_before_copy (n : Nat) (ext : Extent3D) :
    (∃ pre post, ExternalMemoryFDExport.draw n ext =
        pre ++ DrawEvent.renderpass :: post ∧
      (∀ e ∈ pre, is_copy_event e = false) ∧
      DrawEvent.barrier (ImageRef.renderTargetView 0) Layout.undefined
        Layout.colorAttachmentOptimal ∈ pre) ∧
    DrawEvent.renderpass ∉ ExternalMemoryFDImport.draw ext ∧
    (ExternalMemoryFDImport.draw ext).any is_copy_event = true := by
  refine ⟨?_, ?_, rfl⟩
  · obtain ⟨pre, hpre, heq⟩ := producer_frame_copy_sequence n ext
    refine ⟨pre, _, heq, ?_, ?_⟩
    · intro e he
      have h := hpre e he
      cases e <;> simp_all [is_render_or_copy, is_copy_event]
    · have hmem : DrawEvent.barrier (ImageRef.renderTargetView 0)
          Layout.undefined Layout.colorAttachmentOptimal ∈
          ExternalMemoryFDExport.draw n ext := by
        simp [ExternalMemoryFDExport.draw]
      rw [heq] at hmem
      rw [List.mem_append] at hmem
      rcases hmem with h | h
      · exact h
      · simp at h
  · unfold ExternalMemoryFDImport.draw
      ExternalMemoryFDImport.copy_imported_image_to_color_image
    intro h
    simp at h

/-! ## Teardown (C10) -/

/-- Vulkan calls issued by the destructors. -/
inductive TeardownEvent where
  | destroyImage
  | freeMemory
deriving DecidableEq, Repr

namespace ExternalMemoryFDExport

/-- `ExternalMemoryFDExport::~ExternalMemoryFDExport`: destroys the
exportable image when its handle is non-null, then frees the exportable
memory when its handle is non-null.  Handles are naturals with 0 standing for
`VK_NULL_HANDLE`. -/
def destructor (exportable_image exportable_memory : Nat) :
    List TeardownEvent :=
  (if exportable_image ≠ 0 then [TeardownEvent.destroyImage] else []) ++
  (if exportable_memory ≠ 0 then [TeardownEvent.freeMemory] else [])

end ExternalMemoryFDExport

namespace ExternalMemoryFDImport

/-- `ExternalMemoryFDImport::~ExternalMemoryFDImport`: destroys the imported
image when its handle is non-null, then frees the imported memory when its
handle is non-null. -/
def destructor (imported_image imported_memory : Nat) : List TeardownEvent :=
  (if imported_image ≠ 0 then [TeardownEvent.destroyImage] else []) ++
  (if imported_memory ≠ 0 then [TeardownEvent.freeMemory] else [])

end ExternalMemoryFDImport

/-- C10: in both destructors the dependent image is destroyed before the
backing memory is freed (the trace is a sublist of
`[destroyImage, freeMemory]`, so each call is issued at most once and never
out of order), a null handle causes the corresponding call to be skipped
entirely, and a non-null handle is released exactly once. -/
theorem teardown_order_and_guards (i m : Nat) :
    List.Sublist (ExternalMemoryFDExport.destructor i m)
      [TeardownEvent.destroyImage, TeardownEvent.freeMemory] ∧
    (i = 0 → TeardownEvent.destroyImage ∉
      ExternalMemoryFDExport.destructor i m) ∧
    (m = 0 → TeardownEvent.freeMemory ∉
      ExternalMemoryFDExport.destructor i m) ∧
    (i ≠ 0 → (ExternalMemoryFDExport.destructor i m).count
      TeardownEvent.destroyImage = 1) ∧
    (m ≠ 0 → (ExternalMemoryFDExport.destructor i m).count
      TeardownEvent.freeMemory = 1) ∧
    List.Sublist (ExternalMemoryFDImport.destructor i m)
      [TeardownEvent.destroyImage, TeardownEvent.freeMemory] ∧
    (i = 0 → TeardownEvent.destroyImage ∉
      ExternalMemoryFDImport.destructor i m) ∧
    (m = 0 → TeardownEvent.freeMemory ∉
      ExternalMemoryFDImport.destructor i m) ∧
    (i ≠ 0 → (ExternalMemoryFDImport.destructor i m).count
      TeardownEvent.destroyImage = 1) ∧
    (m ≠ 0 → (ExternalMemoryFDImport.destructor i m).count
      TeardownEvent.freeMemory = 1) := by
  by_cases hi : i = 0 <;> by_cases hm : m = 0 <;>
    simp [ExternalMemoryFDExport.destructor,
      ExternalMemoryFDImport.destructor, hi, hm]

/-- C10 witness: concrete teardowns — both handles live, and memory live with
the image never created — behave as stated. -/
theorem teardown_order_and_guards_witness :
    (ExternalMemoryFDExport.destructor 5 7).count
      TeardownEvent.destroyImage = 1 ∧
    (ExternalMemoryFDExport.destructor 5 7).count
      TeardownEvent.freeMemory = 1 ∧
    TeardownEvent.destroyImage ∉ ExternalMemoryFDImport.destructor 0 7 ∧
    TeardownEvent.freeMemory ∉ ExternalMemoryFDExport.destructor 5 0 :=
  ⟨(teardown_order_and_guards 5 7).2.2.2.1 (by decide),
   (teardown_order_and_guards 5 7).2.2.2.2.1 (by decide),
   (teardown_order_and_guards 0 7).2.2.2.2.2.2.1 rfl,
   (teardown_order_and_guards 5 0).2.2.1 rfl⟩

/-- C1 witness: the round trip at the concrete descriptor 7. -/
theorem send_receive_fd_roundtrip_witness :
    malformed_control (ExternalMemoryFDExport.send_fd_msg 7).control =
      false ∧
    ExternalMemoryFDImport.receive_fd
      ((ExternalMemoryFDExport.send_fd_msg 7).payload_len : Int)
      (ExternalMemoryFDExport.send_fd_msg 7).control = Except.ok 7 :=
  send_receive_fd_roundtrip 7

/-- C8 witness: the producer frame-copy decomposition at a concrete render
target (3 views, 256×256 extent). -/
theorem producer_frame_copy_sequence_witness :
    ∃ pre, (∀ e ∈ pre, is_render_or_copy e = false) ∧
      ExternalMemoryFDExport.draw 3
        { width := 256, height := 256, depth := 1 } =
        pre ++ DrawEvent.renderpass ::
          [DrawEvent.barrier (ImageRef.renderTargetView 0)
             Layout.colorAttachmentOptimal Layout.transferSrcOptimal,
           DrawEvent.setLayout 0 Layout.transferSrcOptimal,
           DrawEvent.barrier ImageRef.exportableView Layout.undefined
             Layout.transferDstOptimal,
           DrawEvent.copyImage (ImageRef.renderTargetImage 0)
             ImageRef.exportableImage
             [{ extent := { width := 256, height := 256, depth := 1 },
                srcAspectColor := true, srcMipLevel := 0, srcLayerCount := 1,
                dstAspectColor := true, dstMipLevel := 0,
                dstLayerCount := 1 }],
           DrawEvent.barrier (ImageRef.renderTargetView 0)
             Layout.transferSrcOptimal Layout.presentSrc,
           DrawEvent.setLayout 0 Layout.presentSrc] :=
  producer_frame_copy_sequence 3 { width := 256, height := 256, depth := 1 }

/-- C9 witness: the amended renderpass/copy ordering at a concrete render
target (3 views, 256×256 extent). -/
theorem renderpass_before_copy_witness :
    (∃ pre post, ExternalMemoryFDExport.draw 3
        { width := 256, height := 256, depth := 1 } =
        pre ++ DrawEvent.renderpass :: post ∧
      (∀ e ∈ pre, is_copy_event e = false) ∧
      DrawEvent.barrier (ImageRef.renderTargetView 0) Layout.undefined
        Layout.colorAttachmentOptimal ∈ pre) ∧
    DrawEvent.renderpass ∉
      ExternalMemoryFDImport.draw
        { width := 256, height := 256, depth := 1 } ∧
    (ExternalMemoryFDImport.draw
      { width := 256, height := 256, depth := 1 }).any is_copy_event =
      true :=
  renderpass_before_copy 3 { width := 256, height := 256, depth := 1 }
